import Mathlib

set_option maxRecDepth 8000

/-!
Verification of the block extraction and reconciliation engine of the shift
report spreadsheet processor (source: src/excel_processor.py).

The grid of spreadsheet cells is embedded shallowly: a cell is Empty (None or
NaN in pandas), a Number (int or float cells, carried as the exact decimal
value the source feeds through Decimal(str(value))), or Text.  Python
decimal.Decimal values are modelled by the type Dec below, a mantissa and a
decimal exponent, exactly as the decimal module represents them; addition,
multiplication, comparison and quantize with the default ROUND_HALF_EVEN
rounding are defined on that representation.  Each extractor of the source is
translated function by function, and the Python string operations the source
uses (strip, upper, lower, startswith, containment, isdigit) are modelled on
character lists with the Cyrillic letter range handled explicitly.
-/

/-- Python decimal.Decimal for this program: the value man / 10 ^ exp.
The normalizer always returns values quantized to two fractional digits, so
every amount flowing through the extractors has exp = 2 and structural
equality of results coincides with numeric equality. -/
structure Dec where
  man : ℤ
  exp : ℕ
deriving DecidableEq

def pow10 : ℕ → ℤ
  | 0 => 1
  | n + 1 => 10 * pow10 n

/-- Numeric value of a Dec, for interpretation in statements. -/
def Dec.val (a : Dec) : ℚ := (a.man : ℚ) / (pow10 a.exp : ℚ)

/-- Decimal addition: align exponents, add mantissas (exact, as in the
Python decimal module). -/
def Dec.add (a b : Dec) : Dec :=
  if a.exp ≤ b.exp then ⟨a.man * pow10 (b.exp - a.exp) + b.man, b.exp⟩
  else ⟨a.man + b.man * pow10 (a.exp - b.exp), a.exp⟩

def Dec.neg (a : Dec) : Dec := ⟨-a.man, a.exp⟩

def Dec.sub (a b : Dec) : Dec := a.add b.neg

/-- Decimal multiplication: exact, mantissas multiply, exponents add. -/
def Dec.mul (a b : Dec) : Dec := ⟨a.man * b.man, a.exp + b.exp⟩

/-- Numeric comparison of two decimals (cross-multiplied mantissas). -/
def Dec.le (a b : Dec) : Bool := a.man * pow10 b.exp ≤ b.man * pow10 a.exp

/-- Numeric equality of two decimals, Python ==. -/
def Dec.eqv (a b : Dec) : Bool := a.man * pow10 b.exp = b.man * pow10 a.exp

/-- copy_abs of the Python decimal module. -/
def Dec.abs (a : Dec) : Dec := ⟨|a.man|, a.exp⟩

/-- Integer division rounding to nearest, ties to even: the ROUND_HALF_EVEN
default of the decimal module.  The divisor is a positive power of ten. -/
def divHalfEven (n d : ℤ) : ℤ :=
  let q := Int.fdiv n d
  let r := n - q * d
  if 2 * r < d then q
  else if d < 2 * r then q + 1
  else if q % 2 = 0 then q else q + 1

/-- Decimal.quantize(Decimal(0.01)) of the source: round to two fractional
digits, banker rounding. -/
def quantize2 (x : Dec) : Dec :=
  if x.exp ≤ 2 then ⟨x.man * pow10 (2 - x.exp), 2⟩
  else ⟨divHalfEven x.man (pow10 (x.exp - 2)), 2⟩

/-- The integer n as a two-fractional-digit decimal (n.00), the form in
which every whole amount appears after normalization. -/
def decInt (n : ℤ) : Dec := ⟨n * 100, 2⟩

inductive Cell where
  | empty
  | num (d : Dec)
  | str (s : String)
deriving DecidableEq

abbrev Grid := List (List Cell)

/-- Cell lookup inside one row; pandas pads ragged rows with NaN, and the
source guards every access with a shape test that falls back to None, so a
missing column reads as Empty. -/
def getCellRow (row : List Cell) (c : ℕ) : Cell :=
  match row.get? c with
  | some cl => cl
  | none => Cell.empty

/-- Cell lookup in the grid: df.iloc of the source with its shape guards. -/
def getCell (g : Grid) (r c : ℕ) : Cell :=
  match g.get? r with
  | some row => getCellRow row c
  | none => Cell.empty

/-- df.shape, second component: the column count of the loaded sheet. -/
def maxWidth (g : Grid) : ℕ := g.foldr (fun row m => max row.length m) 0

/-- Python str.upper for the characters appearing in the sheets: ASCII
letters and the Cyrillic range U+0430 to U+044F plus io-with-diaeresis. -/
def pyUpperChar (c : Char) : Char :=
  if 97 ≤ c.toNat && c.toNat ≤ 122 then Char.ofNat (c.toNat - 32)
  else if 1072 ≤ c.toNat && c.toNat ≤ 1103 then Char.ofNat (c.toNat - 32)
  else if c.toNat = 1105 then Char.ofNat 1025
  else c

/-- Python str.lower, inverse ranges of pyUpperChar. -/
def pyLowerChar (c : Char) : Char :=
  if 65 ≤ c.toNat && c.toNat ≤ 90 then Char.ofNat (c.toNat + 32)
  else if 1040 ≤ c.toNat && c.toNat ≤ 1071 then Char.ofNat (c.toNat + 32)
  else if c.toNat = 1025 then Char.ofNat 1105
  else c

def pyUpper (s : String) : String := String.mk (s.data.map pyUpperChar)

def pyLower (s : String) : String := String.mk (s.data.map pyLowerChar)

/-- The whitespace alphabet of Python str.strip as it occurs in the
sheets. -/
def isPyWs (c : Char) : Bool :=
  c = ' ' || c = '\t' || c = '\n' || c = '\r' || c = '\x0b' || c = '\x0c'

/-- Python str.strip(): drop leading and trailing whitespace. -/
def pyStrip (s : String) : String :=
  String.mk (((s.data.dropWhile isPyWs).reverse.dropWhile isPyWs).reverse)

/-- Does the second list start with the first (the pattern)?  Python
str.startswith on character lists. -/
def listStarts : List Char → List Char → Bool
  | [], _ => true
  | _ :: _, [] => false
  | p :: ps, c :: cs => p = c && listStarts ps cs

/-- Substring occurrence: the pattern occurs somewhere in the second list. -/
def listHasSub : List Char → List Char → Bool
  | pat, [] => pat.isEmpty
  | pat, c :: cs => listStarts pat (c :: cs) || listHasSub pat cs

/-- Python containment test: pat in s. -/
def containsSub (s pat : String) : Bool := listHasSub pat.data s.data

/-- Python s.startswith pat. -/
def strStarts (s pat : String) : Bool := listStarts pat.data s.data

/-- Python str() of a numeric cell.  The source only ever tests these
strings for emptiness and for containing Cyrillic key words, and both
behaviours agree with the digit string of the mantissa; the exact float
formatting is irrelevant to every claim below. -/
def numStr (d : Dec) : String := toString d.man

/-- str(cell) of the source for a non-missing cell. -/
def cellStr : Cell → String
  | Cell.empty => ""
  | Cell.num d => numStr d
  | Cell.str s => s

/-- Digit run to a natural number, most significant first. -/
def digitsVal : ℕ → List Char → ℕ
  | acc, [] => acc
  | acc, c :: cs => digitsVal (acc * 10 + (c.toNat - 48)) cs

/-- Value of a sign-free decimal literal: integer part, optional dot,
fraction part; the exponent is the number of fraction digits, exactly the
Decimal representation Python builds from the literal. -/
def decValue (body : List Char) : Dec :=
  let ip := body.takeWhile (fun c => c ≠ '.')
  let fp := (body.dropWhile (fun c => c ≠ '.')).drop 1
  ⟨(digitsVal (digitsVal 0 ip) fp : ℤ), fp.length⟩

/-- Python Decimal(string) on a sign-free body made of digits and dots:
legal iff every character is a digit or a dot, at most one dot, and at
least one digit is present. -/
def decCharsCore (body : List Char) : Option Dec :=
  if body.all (fun c => c.isDigit || c = '.') && body.count '.' ≤ 1
      && body.any Char.isDigit then
    some (decValue body)
  else none

/-- Python Decimal(string) restricted to the alphabet produced by the
cleaning step of _parse_decimal (digits, dots, minus signs): a leading
minus negates, a minus anywhere else makes the literal illegal (the body
check rejects it). -/
def decChars : List Char → Option Dec
  | '-' :: body => (decCharsCore body).map Dec.neg
  | body => decCharsCore body

/-- The cleaning step of _parse_decimal: re.sub keeps only digits, commas,
dots and minus signs, then every comma becomes a dot (the replace of spaces
in the source is the identity there, spaces were already removed by the
regex). -/
def cleanNum (s : String) : List Char :=
  (s.data.filter fun c => c.isDigit || c = ',' || c = '.' || c = '-').map
    fun c => if c = ',' then '.' else c

/-- _parse_decimal of the source.  None/NaN gives 0; a numeric cell is
quantized to two digits; a string is cleaned, an empty remainder gives 0, a
parse failure gives 0. -/
def _parse_decimal : Cell → Dec
  | Cell.empty => decInt 0
  | Cell.num d => quantize2 d
  | Cell.str s =>
    let cl := cleanNum s
    if cl.isEmpty then decInt 0
    else
      match decChars cl with
      | some d => quantize2 d
      | none => decInt 0

/-- _parse_int of the source: int(_parse_decimal(value)); Python int()
truncates toward zero. -/
def _parse_int (c : Cell) : ℤ :=
  let d := _parse_decimal c
  Int.tdiv d.man (pow10 d.exp)

/-! ## The income block (extract_income_records of the source)

The horizontal income extractor builds one Python dict per line with exactly
the keys category and amount.  To settle the claims about the shape of these
records the dicts are embedded literally, as ordered key-value lists. -/

inductive PyVal where
  | vs (s : String)
  | vd (d : Dec)
deriving DecidableEq

abbrev PyDict := List (String × PyVal)

def incomeDict (cat : String) (a : Dec) : PyDict :=
  [("category", PyVal.vs cat), ("amount", PyVal.vd a)]

/-- Python str.isdigit after removing dots, commas, minus signs and spaces:
the looks-numeric test of the data-row probe (source lines 185 and 822). -/
def looksNumericSp (s : String) : Bool :=
  let rest := s.data.filter fun c =>
    !(c = '.' || c = ',' || c = '-' || c = ' ')
  !rest.isEmpty && rest.all Char.isDigit

/-- Same test but without removing spaces, as written in the total-row
branch of the income extractor (source line 163). -/
def looksNumericNoSp (s : String) : Bool :=
  let rest := s.data.filter fun c => !(c = '.' || c = ',' || c = '-')
  !rest.isEmpty && rest.all Char.isDigit

/-- Value probe of a data row (income and expenses): scan column offsets 1
to 5 right of the label, skip empty cells, take the first number; a text
cell that does not look numeric aborts the probe (block boundary), a text
cell that does look numeric is parsed.  Returns none when no amount was
found, whether by exhaustion or by the text abort — the source treats both
alike. -/
def probeDataGo (row : List Cell) (c : ℕ) : List ℕ → Option Dec
  | [] => none
  | k :: ks =>
    match getCellRow row (c + k) with
    | Cell.empty => probeDataGo row c ks
    | Cell.num d => some (_parse_decimal (Cell.num d))
    | Cell.str s =>
      if looksNumericSp s then some (_parse_decimal (Cell.str s)) else none

def probeDataAmount (row : List Cell) (c : ℕ) : Option Dec :=
  probeDataGo row c [1, 2, 3, 4, 5]

/-- Value probe of the income total row: same offsets, but a non-numeric
text cell does not abort — the loop simply moves to the next offset
(source lines 157 to 166). -/
def probeTotalGo (row : List Cell) (c : ℕ) : List ℕ → Option Dec
  | [] => none
  | k :: ks =>
    match getCellRow row (c + k) with
    | Cell.empty => probeTotalGo row c ks
    | Cell.num d => some (_parse_decimal (Cell.num d))
    | Cell.str s =>
      if looksNumericNoSp s then some (_parse_decimal (Cell.str s))
      else probeTotalGo row c ks

def probeTotalAmount (row : List Cell) (c : ℕ) : Option Dec :=
  probeTotalGo row c [1, 2, 3, 4, 5]

/-- Row loop of _extract_income_horizontal: stop on an empty or numeric
label cell or a blank label; a label containing both ИТОГО and СМЕН is the
closing total (emitted if its probe finds an amount, then stop); otherwise
probe for the amount; with no amount found, the single label ВХОДНЫЕ БИЛЕТЫ
stops the scan, every other label is saved with amount zero. -/
def incomeScan (c : ℕ) : List (List Cell) → List PyDict
  | [] => []
  | row :: rest =>
    match getCellRow row c with
    | Cell.empty => []
    | Cell.num _ => []
    | Cell.str raw =>
      if (pyStrip raw) = "" then []
      else if containsSub (pyUpper (pyStrip raw)) "ИТОГО"
          && containsSub (pyUpper (pyStrip raw)) "СМЕН" then
        match probeTotalAmount row c with
        | some a => [incomeDict (pyStrip raw) a]
        | none => []
      else
        match probeDataAmount row c with
        | some a => incomeDict (pyStrip raw) a :: incomeScan c rest
        | none =>
          if pyUpper (pyStrip raw) = "ВХОДНЫЕ БИЛЕТЫ" then []
          else incomeDict (pyStrip raw) (decInt 0) :: incomeScan c rest

/-- The fixed category list of the vertical income format. -/
def income_categories : List String :=
  ["Входные билеты", "Бар", "Консумация Бара", "Консумация кухни",
   "Crazy Menu", "Общий чай", "Overtime", "Кальяны", "Шары", "Штрафы",
   "Стафф", "Стафф кальян", "Доход клуба", "Сервисный сбор", "Итого",
   "плюс по кассе", "Итого за смену"]

/-- Row loop of _extract_income_vertical: labels in column 0, amounts in
column 1, stop at the first label outside the category list. -/
def incomeVertScan : List (List Cell) → List PyDict
  | [] => []
  | row :: rest =>
    match getCellRow row 0 with
    | Cell.empty => []
    | cl =>
      let category := pyStrip (cellStr cl)
      if (income_categories.map pyUpper).contains (pyUpper category) then
        incomeDict category (_parse_decimal (getCellRow row 1))
          :: incomeVertScan rest
      else []

/-- The anchor test of the horizontal income format: a text cell containing
ДОХОД after strip and upper. -/
def isIncomeAnchorCell : Cell → Bool
  | Cell.str s => containsSub (pyUpper (pyStrip s)) "ДОХОД"
  | _ => false

/-- The anchor test of the vertical income format: a text cell that is
exactly ДОХОДЫ after strip and upper. -/
def isIncomeVertCell : Cell → Bool
  | Cell.str s => pyUpper (pyStrip s) = "ДОХОДЫ"
  | _ => false

/-- Anchor search of the horizontal format over the cells of row 0. -/
def findIncomeCol (g : Grid) : Option ℕ :=
  (List.range (maxWidth g)).find? fun c => isIncomeAnchorCell (getCell g 0 c)

/-- Anchor search of the vertical format down column 0; data starts one row
below the anchor. -/
def findIncomeStartVert (g : Grid) : Option ℕ :=
  ((List.range g.length).find? fun r => isIncomeVertCell (getCell g r 0)).map
    (fun r => r + 1)

/-- extract_income_records of the source.  An empty sheet and a sheet
without either anchor both give the empty list. -/
def extract_income_records (g : Grid) : List PyDict :=
  match findIncomeCol g with
  | some c => incomeScan c (g.drop 1)
  | none =>
    match findIncomeStartVert g with
    | some r => incomeVertScan (g.drop r)
    | none => []

/-! ## The ticket block (extract_ticket_sales of the source) -/

structure TicketRec where
  price_label : String
  price_value : Option Dec
  quantity : ℤ
  amount : Dec
  is_total : Bool
deriving DecidableEq

/-- Intermediate state of the ticket row loop: emitted records, running
quantity and amount sums over data rows, and the reported totals of the
ИТОГО row when one was reached. -/
structure TicketScanOut where
  records : List TicketRec
  calcQty : ℤ
  calcAmt : Dec
  rep : Option (ℤ × Dec)
deriving DecidableEq

structure TicketResult where
  records : List TicketRec
  calculated_quantity : ℤ
  calculated_amount : Dec
  total_quantity : ℤ
  total_amount : Dec
  totals_match : Bool
deriving DecidableEq

/-- Normalized text of a cell for the header tests: str(cell).strip().lower()
with missing cells as the empty string. -/
def normCellLow : Cell → String
  | Cell.empty => ""
  | Cell.num d => numStr d
  | Cell.str s => pyLower (pyStrip s)

/-- The hint next to the ticket anchor (source lines 496 to 498): the row
below the anchor must mention цена and кол in its first three cells. -/
def ticketHint (g : Grid) (j : ℕ) : Bool :=
  let cells := [getCell g j 0, getCell g j 1, getCell g j 2]
  (cells.any fun cl =>
    match cl with
    | Cell.str s => containsSub (pyLower s) "цена"
    | _ => false) &&
  (cells.any fun cl =>
    match cl with
    | Cell.str s => containsSub (pyLower s) "кол"
    | _ => false)

/-- Anchor row of the ticket block: column 0 equals ВХОДНЫЕ БИЛЕТЫ after
strip and upper, a next row exists and carries the header hint. -/
def findTicketStart (g : Grid) : Option ℕ :=
  (List.range g.length).find? fun i =>
    (match getCell g i 0 with
     | Cell.str s => pyUpper (pyStrip s) = "ВХОДНЫЕ БИЛЕТЫ"
     | _ => false)
    && decide (i + 1 < g.length) && ticketHint g (i + 1)

/-- Header detection of the ticket block (source lines 510 to 523): a row
mentioning цена, кол and сумма starts the data right below it; otherwise
the first row with a non-blank first cell starts the data itself; when the
sheet ends first, the original start row stands (returned as none). -/
def ticketHeaderMatch (row : List Cell) : Bool :=
  let ns := [normCellLow (getCellRow row 0), normCellLow (getCellRow row 1),
    normCellLow (getCellRow row 2)]
  (ns.any fun s => containsSub s "цена") && (ns.any fun s => containsSub s "кол")
    && (ns.any fun s => containsSub s "сумма")

def ticketDataRows : List (List Cell) → Option (List (List Cell))
  | [] => none
  | row :: rest =>
    if ticketHeaderMatch row then some rest
    else if normCellLow (getCellRow row 0) ≠ "" then some (row :: rest)
    else ticketDataRows rest

/-- Blank-row lookahead of the ticket and payment row loops (source lines
561 to 565 and 646 to 650): the next four rows, column 0, upper-cased text
containing ИТОГО. -/
def lookaheadItogo (rest : List (List Cell)) : Bool :=
  (rest.take 4).any fun row =>
    match getCellRow row 0 with
    | Cell.str s => containsSub (pyUpper s) "ИТОГО"
    | _ => false

/-- One data row of the ticket loop: skip a blank label, otherwise emit the
record and accumulate the sums. -/
def ticketStep (label : String) (row : List Cell) (next : TicketScanOut) :
    TicketScanOut :=
  if label = "" then next
  else
    let q := _parse_int (getCellRow row 1)
    let a := _parse_decimal (getCellRow row 2)
    ⟨⟨label, some (_parse_decimal (getCellRow row 0)), q, a, false⟩
        :: next.records,
      q + next.calcQty, a.add next.calcAmt, next.rep⟩

/-- Row loop of extract_ticket_sales (source lines 531 to 590): a text cell
containing ИТОГО closes the block with the reported totals; a blank cell
continues only when the four-row lookahead still sees ИТОГО ahead; any
other row is a data row. -/
def ticketScan : List (List Cell) → TicketScanOut
  | [] => ⟨[], 0, decInt 0, none⟩
  | row :: rest =>
    match getCellRow row 0 with
    | Cell.str s =>
      if containsSub (pyUpper (pyStrip s)) "ИТОГО" then
        let q := _parse_int (getCellRow row 1)
        let a := _parse_decimal (getCellRow row 2)
        ⟨[⟨(pyStrip s), none, q, a, true⟩], 0, decInt 0, some (q, a)⟩
      else ticketStep (pyStrip s) row (ticketScan rest)
    | Cell.empty =>
      if lookaheadItogo rest then ticketScan rest else ⟨[], 0, decInt 0, none⟩
    | Cell.num d => ticketStep (pyStrip (numStr d)) row (ticketScan rest)

/-- extract_ticket_sales of the source.  The empty dict of the source is
none here; reconciliation compares the reported quantity by exact equality
and the reported amount within 0.01. -/
def extract_ticket_sales (g : Grid) : Option TicketResult :=
  match findTicketStart g with
  | none => none
  | some idx =>
    let rows := (ticketDataRows (g.drop (idx + 1))).getD (g.drop (idx + 1))
    let out := ticketScan rows
    if out.records.isEmpty then none
    else
      some ⟨out.records, out.calcQty, out.calcAmt,
        (match out.rep with | some (q, _) => q | none => out.calcQty),
        (match out.rep with | some (_, a) => a | none => out.calcAmt),
        (match out.rep with | some (q, _) => decide (q = out.calcQty) | none => true)
          && (match out.rep with
              | some (_, a) => Dec.le (Dec.abs (a.sub out.calcAmt)) (Dec.mk 1 2)
              | none => true)⟩

/-! ## The payment types block (extract_payment_types of the source) -/

structure PayRec where
  payment_type : String
  amount : Dec
  is_total : Bool
  is_cash_total : Bool
deriving DecidableEq

structure PayScanOut where
  records : List PayRec
  calcTotal : Dec
  rep : Option Dec
  repCash : Option Dec
deriving DecidableEq

structure PayResult where
  records : List PayRec
  calculated_total : Dec
  reported_total : Dec
  cash_total : Option Dec
  totals_match : Bool
deriving DecidableEq

/-- One non-blank row of the payment loop (source lines 656 to 692).  The
label is str(cell).strip(); a label starting with ИТОГО КАССА is the cash
subtotal (scan goes on, the latest such amount is kept); a label starting
with ИТОГО closes the block as the reported total; anything else is a data
row accumulated into the computed total. -/
def payStep (label : String) (ac : Cell) (next : PayScanOut) : PayScanOut :=
  if label = "" then next
  else if strStarts (pyUpper label) "ИТОГО КАССА" then
    let a := _parse_decimal ac
    ⟨⟨"ИТОГО КАССА", a, false, true⟩ :: next.records, next.calcTotal, next.rep,
      some (next.repCash.getD a)⟩
  else if strStarts (pyUpper label) "ИТОГО" then
    let a := _parse_decimal ac
    ⟨[⟨"ИТОГО", a, true, false⟩], decInt 0, some a, none⟩
  else
    let a := _parse_decimal ac
    ⟨⟨label, a, false, false⟩ :: next.records, a.add next.calcTotal, next.rep,
      next.repCash⟩

/-- Row loop of extract_payment_types (source lines 639 to 692): labels in
column 0, amounts in column 2; a blank label continues only when the
four-row lookahead still sees ИТОГО ahead. -/
def payScan : List (List Cell) → PayScanOut
  | [] => ⟨[], decInt 0, none, none⟩
  | row :: rest =>
    match getCellRow row 0 with
    | Cell.empty =>
      if lookaheadItogo rest then payScan rest
      else ⟨[], decInt 0, none, none⟩
    | Cell.num d => payStep (pyStrip (numStr d)) (getCellRow row 2) (payScan rest)
    | Cell.str s => payStep (pyStrip s) (getCellRow row 2) (payScan rest)

/-- The anchor test of the payment block: a text cell that is exactly
НАЛИЧНЫЕ after strip and upper. -/
def isPayAnchorCell : Cell → Bool
  | Cell.str s => pyUpper (pyStrip s) = "НАЛИЧНЫЕ"
  | _ => false

/-- Anchor of the payment block down column 0; the scan starts on the
anchor row itself. -/
def findPayStart (g : Grid) : Option ℕ :=
  (List.range g.length).find? fun i => isPayAnchorCell (getCell g i 0)

/-- extract_payment_types of the source; the empty dict is none here. -/
def extract_payment_types (g : Grid) : Option PayResult :=
  match findPayStart g with
  | none => none
  | some r =>
    let out := payScan (g.drop r)
    if out.records.isEmpty then none
    else
      some ⟨out.records, out.calcTotal, out.rep.getD out.calcTotal, out.repCash,
        match out.rep with
        | some t => Dec.le (Dec.abs (t.sub out.calcTotal)) (Dec.mk 1 2)
        | none => true⟩

/-! ## The expense block (extract_expense_records of the source) -/

structure ExpRec where
  expense_item : String
  amount : Dec
  is_total : Bool
deriving DecidableEq

structure ExpScanOut where
  records : List ExpRec
  calcTotal : Dec
  rep : Option Dec
deriving DecidableEq

structure ExpResult where
  records : List ExpRec
  calculated_total : Dec
  reported_total : Dec
  totals_match : Bool
deriving DecidableEq

/-- Row-major anchor search over every cell of the grid, with the matched
column and the row below it, shared by the expense and cash extractors. -/
def findAnchorRC (g : Grid) (p : String → Bool) : Option (ℕ × ℕ) :=
  (List.range g.length).findSome? fun r =>
    ((List.range (maxWidth g)).find? fun c =>
      match getCell g r c with
      | Cell.str s => p s
      | _ => false).map fun c => (r, c)

/-- Row loop of extract_expense_records (source lines 795 to 851): stop on
an empty, numeric or blank label cell; probe offsets 1 to 5 for the amount;
a row without an amount is skipped (the loop continues); a label containing
итого closes the block as the reported total. -/
def expScan (c : ℕ) : List (List Cell) → ExpScanOut
  | [] => ⟨[], decInt 0, none⟩
  | row :: rest =>
    match getCellRow row c with
    | Cell.empty => ⟨[], decInt 0, none⟩
    | Cell.num _ => ⟨[], decInt 0, none⟩
    | Cell.str s =>
      if (pyStrip s) = "" then ⟨[], decInt 0, none⟩
      else
        match probeDataAmount row c with
        | none => expScan c rest
        | some a =>
          if containsSub (pyLower (pyStrip s)) "итого" then
            ⟨[⟨(pyStrip s), a, true⟩], decInt 0, some a⟩
          else
            let out := expScan c rest
            ⟨⟨(pyStrip s), a, false⟩ :: out.records, a.add out.calcTotal, out.rep⟩

/-- extract_expense_records of the source; the empty dict is none here. -/
def extract_expense_records (g : Grid) : Option ExpResult :=
  match findAnchorRC g (fun s => containsSub (pyLower (pyStrip s)) "расход") with
  | none => none
  | some (r, c) =>
    let out := expScan c (g.drop (r + 1))
    if out.records.isEmpty then none
    else
      some ⟨out.records, out.calcTotal, out.rep.getD out.calcTotal,
        match out.rep with
        | some t => Dec.le (Dec.abs (t.sub out.calcTotal)) (Dec.mk 1 2)
        | none => true⟩

/-! ## The cash collection block (extract_cash_collection of the source) -/

structure CashRec where
  currency_label : String
  quantity : Option Dec
  exchange_rate : Option Dec
  amount : Dec
  is_total : Bool
deriving DecidableEq

structure CashScanOut where
  records : List CashRec
  calcTotal : Dec
  rep : Option Dec
deriving DecidableEq

structure CashResult where
  records : List CashRec
  calculated_total : Dec
  reported_total : Dec
  totals_match : Bool
deriving DecidableEq

/-- Header-row test of the cash block (source lines 901 to 908): any of the
four cells from the anchor column mentions кол or курс. -/
def cashHeaderRow (g : Grid) (i c : ℕ) : Bool :=
  let ns := [normCellLow (getCell g i c), normCellLow (getCell g i (c + 1)),
    normCellLow (getCell g i (c + 2)), normCellLow (getCell g i (c + 3))]
  (ns.any fun s => containsSub s "кол") || (ns.any fun s => containsSub s "курс")

/-- The first three rows after the anchor are searched for the header row;
data starts below it, or at the original start row when none matches. -/
def cashHeaderAdjust (g : Grid) (start c : ℕ) : ℕ :=
  match (List.range' start (min (start + 3) g.length - start)).find?
      (fun i => cashHeaderRow g i c) with
  | some i => i + 1
  | none => start

/-- Blank-row lookahead of the cash loop (source lines 924 to 932): up to
seven rows ahead, anchor column, stripped lower-cased text containing
итого. -/
def cashLookahead (rest : List (List Cell)) (c : ℕ) : Bool :=
  (rest.take 7).any fun row =>
    match getCellRow row c with
    | Cell.str s => containsSub (pyLower (pyStrip s)) "итого"
    | _ => false

/-- Row loop of extract_cash_collection (source lines 915 to 972): labels
in the anchor column, quantity, rate and amount at offsets 1, 2 and 3; on a
non-total row whose parsed amount is zero the amount is recomputed as
quantity times rate, quantized to two digits (quantity and rate are always
present on non-total rows, mirroring the None test of the source); a total
row (label containing итого) closes the block. -/
def cashScan (c : ℕ) : List (List Cell) → CashScanOut
  | [] => ⟨[], decInt 0, none⟩
  | row :: rest =>
    match getCellRow row c with
    | Cell.empty =>
      if cashLookahead rest c then cashScan c rest else ⟨[], decInt 0, none⟩
    | Cell.num _ => ⟨[], decInt 0, none⟩
    | Cell.str s =>
      if (pyStrip s) = "" then cashScan c rest
      else
        let it := containsSub (pyLower (pyStrip s)) "итого"
        let qty : Option Dec :=
          if it then none else some (_parse_decimal (getCellRow row (c + 1)))
        let rate : Option Dec :=
          if it then none else some (_parse_decimal (getCellRow row (c + 2)))
        let a0 := _parse_decimal (getCellRow row (c + 3))
        let a :=
          match it, qty, rate with
          | false, some q, some r0 =>
            if a0 = decInt 0 then quantize2 (q.mul r0) else a0
          | _, _, _ => a0
        if it then ⟨[⟨(pyStrip s), qty, rate, a, true⟩], decInt 0, some a⟩
        else
          let out := cashScan c rest
          ⟨⟨(pyStrip s), qty, rate, a, false⟩ :: out.records, a.add out.calcTotal,
            out.rep⟩

/-- extract_cash_collection of the source; the empty dict is none here. -/
def extract_cash_collection (g : Grid) : Option CashResult :=
  match findAnchorRC g (fun s => containsSub (pyLower (pyStrip s)) "инкассация") with
  | none => none
  | some (r, c) =>
    let out := cashScan c (g.drop (cashHeaderAdjust g (r + 1) c))
    if out.records.isEmpty then none
    else
      let rep := out.rep.getD out.calcTotal
      some ⟨out.records, out.calcTotal, rep,
        Dec.le (Dec.abs (rep.sub out.calcTotal)) (Dec.mk 1 2)⟩

/-! ## The staff debts block (extract_staff_debts of the source) -/

structure DebtRec where
  debt_type : String
  amount : Dec
  is_total : Bool
deriving DecidableEq

structure DebtScanOut where
  records : List DebtRec
  calcTotal : Dec
  rep : Option Dec
deriving DecidableEq

structure DebtResult where
  records : List DebtRec
  calculated_total : Dec
  reported_total : Dec
  totals_match : Bool
deriving DecidableEq

/-- The amount test next to the candidate итого row of the debts search
(source line 1017): the cell three columns right must exist and be an int
or float.  The source omits the NaN test here, and pandas stores a missing
cell inside the sheet as NaN, which is a float, so an in-range Empty cell
passes the test as well; only Text fails. -/
def debtAmountOk (g : Grid) (r c : ℕ) : Bool :=
  decide (c + 3 < maxWidth g) &&
    (match getCell g r (c + 3) with
     | Cell.str _ => false
     | _ => true)

/-- The итого search below one инкассация anchor cell (source lines 1010 to
1021): offsets 5 to 14, a non-empty text cell in the anchor column whose
stripped lower-cased text contains итого, with a numeric amount cell. -/
def debtItogoAt (g : Grid) (r c : ℕ) : Option ℕ :=
  ((List.range' 5 10).find? fun k =>
    decide (r + k < g.length) &&
    (match getCell g (r + k) c with
     | Cell.str s => !(s = "") && containsSub (pyLower (pyStrip s)) "итого"
     | _ => false) && debtAmountOk g (r + k) c).map fun k => r + k

/-- The full search for the cash block total that anchors the debts block:
row-major over every cell, first инкассация cell whose итого search
succeeds (a failed search keeps scanning further cells). -/
def findCashItogo (g : Grid) : Option (ℕ × ℕ) :=
  (List.range g.length).findSome? fun r =>
    (List.range (maxWidth g)).findSome? fun c =>
      match getCell g r c with
      | Cell.str s =>
        if containsSub (pyLower (pyStrip s)) "инкассация" then
          (debtItogoAt g r c).map fun k => (k, c)
        else none
      | _ => none

/-- Row loop of the debts block (source lines 1038 to 1069): labels in the
cash column, amounts one column right; stop on an empty, numeric or blank
label; a label containing итого closes the block as the reported total. -/
def debtScan (c : ℕ) : List (List Cell) → DebtScanOut
  | [] => ⟨[], decInt 0, none⟩
  | row :: rest =>
    match getCellRow row c with
    | Cell.empty => ⟨[], decInt 0, none⟩
    | Cell.num _ => ⟨[], decInt 0, none⟩
    | Cell.str s =>
      if (pyStrip s) = "" then ⟨[], decInt 0, none⟩
      else
        let a := _parse_decimal (getCellRow row (c + 1))
        if containsSub (pyLower (pyStrip s)) "итого" then
          ⟨[⟨(pyStrip s), a, true⟩], decInt 0, some a⟩
        else
          let out := debtScan c rest
          ⟨⟨(pyStrip s), a, false⟩ :: out.records, a.add out.calcTotal, out.rep⟩

/-- extract_staff_debts of the source: the block is anchored two rows after
the cash block total and scans at most ten rows; without that total the
extractor returns the empty dict (none here). -/
def extract_staff_debts (g : Grid) : Option DebtResult :=
  match findCashItogo g with
  | none => none
  | some (ir, c) =>
    let out := debtScan c ((g.drop (ir + 2)).take 10)
    if out.records.isEmpty then none
    else
      let rep := out.rep.getD out.calcTotal
      some ⟨out.records, out.calcTotal, rep,
        Dec.le (Dec.abs (rep.sub out.calcTotal)) (Dec.mk 1 2)⟩

/-! ## Derived sums and concrete grids used by the claims -/

/-- Sum of the amounts of the payment line items: records that are neither
the closing total nor the ИТОГО КАССА subtotal, exactly the rows the source
accumulates into calculated_total. -/
def paySum (rs : List PayRec) : Dec :=
  ((rs.filter fun r => !r.is_total && !r.is_cash_total).map
    fun r => r.amount).foldr Dec.add (decInt 0)

/-- Sum of the amounts of the non-total cash collection rows. -/
def cashSum (rs : List CashRec) : Dec :=
  ((rs.filter fun r => !r.is_total).map fun r => r.amount).foldr Dec.add
    (decInt 0)

/-- Sum of the quantities of the non-total ticket rows. -/
def ticketQtySum (rs : List TicketRec) : ℤ :=
  ((rs.filter fun r => !r.is_total).map fun r => r.quantity).foldr (· + ·) 0

/-- The grid of the end-to-end scenario of the spec: ДОХОДЫ and ВХОДНЫЕ
БИЛЕТЫ in row 0, one income line, one closing total line. -/
def endToEndGrid : Grid :=
  [[Cell.str "ДОХОДЫ", Cell.empty, Cell.empty, Cell.str "ВХОДНЫЕ БИЛЕТЫ"],
   [Cell.str "Бар", Cell.num (Dec.mk 120000 0)],
   [Cell.str "Итого за смену", Cell.num (Dec.mk 500000 0)]]

/-- An income block whose data rows are immediately followed by the anchor
text of the cash collection block, with no numeric value near it. -/
def boundaryGrid : Grid :=
  [[Cell.str "ДОХОДЫ"],
   [Cell.str "Бар", Cell.num (Dec.mk 100 0)],
   [Cell.str "Инкассация"]]

/-- A cash collection block whose data row is followed by five blank label
rows before the closing итого row: the итого row is five rows past the
first blank, beyond a four-row window but inside the seven-row window the
source actually uses. -/
def gapGrid : Grid :=
  [[Cell.str "Инкассация"],
   [Cell.str "USD", Cell.num (Dec.mk 2 0), Cell.num (Dec.mk 50 0),
    Cell.num (Dec.mk 100 0)],
   [], [], [], [], [],
   [Cell.str "итого", Cell.empty, Cell.empty, Cell.num (Dec.mk 100 0)]]

/-- A ticket block whose reported total quantity (3) disagrees with the
computed quantity (2) while the reported amount matches exactly. -/
def ticketMismatchGrid : Grid :=
  [[Cell.str "ВХОДНЫЕ БИЛЕТЫ"],
   [Cell.str "цена", Cell.str "кол-во", Cell.str "сумма"],
   [Cell.str "1000", Cell.num (Dec.mk 2 0), Cell.num (Dec.mk 2000 0)],
   [Cell.str "ИТОГО", Cell.num (Dec.mk 3 0), Cell.num (Dec.mk 2000 0)]]

/-- A sheet holding a payment block (with cash subtotal and total) and a
cash collection block, used to witness the reconciliation claims. -/
def reconWitnessGrid : Grid :=
  [[Cell.str "НАЛИЧНЫЕ", Cell.empty, Cell.num (Dec.mk 100 0)],
   [Cell.str "КАРТЫ", Cell.empty, Cell.num (Dec.mk 50 0)],
   [Cell.str "ИТОГО КАССА", Cell.empty, Cell.num (Dec.mk 100 0)],
   [Cell.str "ИТОГО", Cell.empty, Cell.num (Dec.mk 150 0)],
   [],
   [Cell.str "Инкассация"],
   [Cell.str "USD", Cell.num (Dec.mk 1 0), Cell.num (Dec.mk 50 0),
    Cell.num (Dec.mk 50 0)],
   [Cell.str "итого", Cell.empty, Cell.empty, Cell.num (Dec.mk 50 0)]]

/-- A payment block closed by a total that differs from the computed sum by
0.02: beyond the tolerance. -/
def reconFailGrid : Grid :=
  [[Cell.str "НАЛИЧНЫЕ", Cell.empty, Cell.num (Dec.mk 9998 2)],
   [Cell.str "ИТОГО", Cell.empty, Cell.num (Dec.mk 100 0)]]

/-- A sheet with a cash collection block followed by a staff debts block:
the cash итого sits five rows under the anchor, the debts start two rows
after it. -/
def debtWitnessGrid : Grid :=
  [[Cell.str "Инкассация"],
   [Cell.str "USD", Cell.num (Dec.mk 1 0), Cell.num (Dec.mk 2 0),
    Cell.num (Dec.mk 2 0)],
   [], [], [],
   [Cell.str "итого", Cell.empty, Cell.empty, Cell.num (Dec.mk 2 0)],
   [],
   [Cell.str "Долг Иван", Cell.num (Dec.mk 500 0)],
   [Cell.str "итого", Cell.num (Dec.mk 500 0)]]

/-- A sheet without any anchor phrase. -/
def noAnchorGrid : Grid :=
  [[Cell.str "abc", Cell.num (Dec.mk 5 0)], [Cell.str "def"]]

/-- A payment block closed by a total that differs from the computed sum by
exactly 0.01: the edge of the tolerance. -/
def reconEdgeGrid : Grid :=
  [[Cell.str "НАЛИЧНЫЕ", Cell.empty, Cell.num (Dec.mk 9999 2)],
   [Cell.str "ИТОГО", Cell.empty, Cell.num (Dec.mk 100 0)]]

/-- The payment result of reconWitnessGrid. -/
def wPayRes : PayResult :=
  ⟨[⟨"НАЛИЧНЫЕ", decInt 100, false, false⟩,
    ⟨"КАРТЫ", decInt 50, false, false⟩,
    ⟨"ИТОГО КАССА", decInt 100, false, true⟩,
    ⟨"ИТОГО", decInt 150, true, false⟩],
   decInt 150, decInt 150, some (decInt 100), true⟩

/-- The cash collection result of reconWitnessGrid. -/
def wCashRes : CashResult :=
  ⟨[⟨"USD", some (decInt 1), some (decInt 50), decInt 50, false⟩,
    ⟨"итого", none, none, decInt 50, true⟩],
   decInt 50, decInt 50, true⟩

/-- The payment result of reconFailGrid: off by 0.02, beyond tolerance. -/
def wFailRes : PayResult :=
  ⟨[⟨"НАЛИЧНЫЕ", Dec.mk 9998 2, false, false⟩,
    ⟨"ИТОГО", decInt 100, true, false⟩],
   Dec.mk 9998 2, decInt 100, none, false⟩

/-- The payment result of reconEdgeGrid: off by exactly 0.01, within
tolerance. -/
def wEdgeRes : PayResult :=
  ⟨[⟨"НАЛИЧНЫЕ", Dec.mk 9999 2, false, false⟩,
    ⟨"ИТОГО", decInt 100, true, false⟩],
   Dec.mk 9999 2, decInt 100, none, true⟩

/-- The staff debts result of debtWitnessGrid. -/
def wDebtRes : DebtResult :=
  ⟨[⟨"Долг Иван", decInt 500, false⟩, ⟨"итого", decInt 500, true⟩],
   decInt 500, decInt 500, true⟩

/-- The ticket result of ticketMismatchGrid: quantities 2 against 3,
amounts equal. -/
def wTickRes : TicketResult :=
  ⟨[⟨"1000", some (decInt 1000), 2, decInt 2000, false⟩,
    ⟨"ИТОГО", none, 3, decInt 2000, true⟩],
   2, decInt 2000, 3, decInt 2000, false⟩

/-! ## Helper lemmas -/

theorem pow10_pos (n : ℕ) : 0 < pow10 n := by
  induction n with
  | zero => decide
  | succ n ih => rw [pow10]; positivity

/-- A decimal is within 0.01 of itself. -/
theorem dec_sub_self_tol (x : Dec) :
    Dec.le (Dec.abs (x.sub x)) (Dec.mk 1 2) = true := by
  unfold Dec.le Dec.abs Dec.sub Dec.add Dec.neg
  simp only [le_refl, if_pos, Nat.sub_self, pow10, mul_one]
  simp only [add_neg_cancel, abs_zero, zero_mul, one_mul, decide_eq_true_eq]
  exact le_of_lt (pow10_pos x.exp)

/-- payStep preserves the scan invariant: the running total is the sum of
the amounts of the emitted plain line items, and the reported total is
present exactly when a total record was emitted. -/
theorem payStep_inv (label : String) (ac : Cell) (next : PayScanOut)
    (h1 : next.calcTotal = paySum next.records)
    (h2 : next.rep = none ↔ ∀ r ∈ next.records, r.is_total = false) :
    (payStep label ac next).calcTotal = paySum (payStep label ac next).records ∧
    ((payStep label ac next).rep = none ↔
      ∀ r ∈ (payStep label ac next).records, r.is_total = false) := by
  unfold payStep
  by_cases hl : label = ""
  · simp only [if_pos hl]
    exact ⟨h1, h2⟩
  · rw [if_neg hl]
    by_cases hk : strStarts (pyUpper label) "ИТОГО КАССА" = true
    · simp only [hk, if_pos]
      constructor
      · simpa [paySum] using h1
      · simpa using h2
    · rw [if_neg hk]
      by_cases hi : strStarts (pyUpper label) "ИТОГО" = true
      · simp only [hi, if_pos]
        constructor
        · simp [paySum]
        · simp
      · rw [if_neg hi]
        constructor
        · simp [paySum, h1]
        · simpa using h2

/-- Invariant of the payment row loop. -/
theorem payScan_inv (rows : List (List Cell)) :
    (payScan rows).calcTotal = paySum (payScan rows).records ∧
    ((payScan rows).rep = none ↔
      ∀ r ∈ (payScan rows).records, r.is_total = false) := by
  induction rows with
  | nil => exact ⟨by simp [payScan, paySum], by simp [payScan]⟩
  | cons row rest ih =>
    cases h : getCellRow row 0 with
    | empty =>
      by_cases hla : lookaheadItogo rest = true
      · simpa [payScan, h, hla] using ih
      · rw [Bool.not_eq_true] at hla
        constructor
        · simp [payScan, h, hla, paySum]
        · simp [payScan, h, hla]
    | num d =>
      simp only [payScan, h]
      exact payStep_inv _ _ _ ih.1 ih.2
    | str s =>
      simp only [payScan, h]
      exact payStep_inv _ _ _ ih.1 ih.2

/-- Invariant of the cash collection row loop. -/
theorem cashScan_inv (c : ℕ) (rows : List (List Cell)) :
    (cashScan c rows).calcTotal = cashSum (cashScan c rows).records ∧
    ((cashScan c rows).rep = none ↔
      ∀ r ∈ (cashScan c rows).records, r.is_total = false) := by
  induction rows with
  | nil => exact ⟨by simp [cashScan, cashSum], by simp [cashScan]⟩
  | cons row rest ih =>
    cases h : getCellRow row c with
    | empty =>
      by_cases hla : cashLookahead rest c = true
      · simpa [cashScan, h, hla] using ih
      · rw [Bool.not_eq_true] at hla
        exact ⟨by simp [cashScan, h, hla, cashSum], by simp [cashScan, h, hla]⟩
    | num d => exact ⟨by simp [cashScan, h, cashSum], by simp [cashScan, h]⟩
    | str s =>
      by_cases hb : pyStrip s = ""
      · simpa [cashScan, h, hb] using ih
      · by_cases hit : containsSub (pyLower (pyStrip s)) "итого" = true
        · constructor
          · simp [cashScan, h, hb, hit, cashSum]
          · simp [cashScan, h, hb, hit]
        · rw [Bool.not_eq_true] at hit
          constructor
          · simp [cashScan, h, hb, hit, cashSum, ih.1]
          · simpa [cashScan, h, hb, hit] using ih.2

/-- ticketStep preserves the ticket invariant: the running quantity is the
sum of the non-total quantities, no reported total means no total record,
and a reported total pins the quantity of every total record. -/
theorem ticketStep_inv (label : String) (row : List Cell)
    (next : TicketScanOut)
    (h1 : next.calcQty = ticketQtySum next.records)
    (h2 : next.rep = none → ∀ r ∈ next.records, r.is_total = false)
    (h3 : ∀ q a, next.rep = some (q, a) →
      ∀ r ∈ next.records, r.is_total = true → r.quantity = q) :
    (ticketStep label row next).calcQty =
      ticketQtySum (ticketStep label row next).records ∧
    ((ticketStep label row next).rep = none →
      ∀ r ∈ (ticketStep label row next).records, r.is_total = false) ∧
    (∀ q a, (ticketStep label row next).rep = some (q, a) →
      ∀ r ∈ (ticketStep label row next).records, r.is_total = true →
        r.quantity = q) := by
  unfold ticketStep
  by_cases hl : label = ""
  · simp only [if_pos hl]
    exact ⟨h1, h2, h3⟩
  · rw [if_neg hl]
    refine ⟨by simp [ticketQtySum, h1], ?_, ?_⟩
    · intro hrep
      simp only [List.mem_cons]
      rintro r (rfl | hr)
      · rfl
      · exact h2 hrep r hr
    · intro q a hrep
      simp only [List.mem_cons]
      rintro r (rfl | hr)
      · intro hc
        exact absurd hc (by simp)
      · exact h3 q a hrep r hr

/-- Invariant of the ticket row loop. -/
theorem ticketScan_inv (rows : List (List Cell)) :
    (ticketScan rows).calcQty = ticketQtySum (ticketScan rows).records ∧
    ((ticketScan rows).rep = none →
      ∀ r ∈ (ticketScan rows).records, r.is_total = false) ∧
    (∀ q a, (ticketScan rows).rep = some (q, a) →
      ∀ r ∈ (ticketScan rows).records, r.is_total = true → r.quantity = q) := by
  induction rows with
  | nil =>
    refine ⟨by simp [ticketScan, ticketQtySum], by simp [ticketScan], ?_⟩
    simp [ticketScan]
  | cons row rest ih =>
    cases h : getCellRow row 0 with
    | empty =>
      by_cases hla : lookaheadItogo rest = true
      · simpa [ticketScan, h, hla] using ih
      · rw [Bool.not_eq_true] at hla
        refine ⟨by simp [ticketScan, h, hla, ticketQtySum],
          by simp [ticketScan, h, hla], by simp [ticketScan, h, hla]⟩
    | num d =>
      simp only [ticketScan, h]
      exact ticketStep_inv _ _ _ ih.1 ih.2.1 ih.2.2
    | str s =>
      by_cases hit : containsSub (pyUpper (pyStrip s)) "ИТОГО" = true
      · refine ⟨by simp [ticketScan, h, hit, ticketQtySum], ?_, ?_⟩
        · simp [ticketScan, h, hit]
        · intro q a hrep
          simp only [ticketScan, h, hit, if_pos] at hrep ⊢
          simp only [List.mem_cons, List.not_mem_nil, or_false]
          rintro r rfl _
          cases hrep
          rfl
      · rw [Bool.not_eq_true] at hit
        simp only [ticketScan, h, hit, Bool.false_eq_true, if_false]
        exact ticketStep_inv _ _ _ ih.1 ih.2.1 ih.2.2

/-- Every record of the debts row loop takes its label from the scanned
column of one of the scanned rows. -/
theorem debtScan_prov (c : ℕ) (rows : List (List Cell)) :
    ∀ rec ∈ (debtScan c rows).records, ∃ row ∈ rows, ∃ s,
      getCellRow row c = Cell.str s ∧ rec.debt_type = pyStrip s := by
  induction rows with
  | nil => simp [debtScan]
  | cons row rest ih =>
    cases h : getCellRow row c with
    | empty => simp [debtScan, h]
    | num d => simp [debtScan, h]
    | str s =>
      by_cases hb : pyStrip s = ""
      · simp [debtScan, h, hb]
      · by_cases hit : containsSub (pyLower (pyStrip s)) "итого" = true
        · simp only [debtScan, h, if_neg hb, hit, if_pos, List.mem_singleton]
          rintro rec rfl
          exact ⟨row, List.mem_cons_self row rest, s, h, rfl⟩
        · rw [Bool.not_eq_true] at hit
          simp only [debtScan, h, if_neg hb, hit, Bool.false_eq_true, if_false,
            List.mem_cons]
          rintro rec (rfl | hrec)
          · exact ⟨row, Or.inl rfl, s, h, rfl⟩
          · obtain ⟨row2, hrow2, s2, hs2, hdt⟩ := ih rec hrec
            exact ⟨row2, Or.inr hrow2, s2, hs2, hdt⟩

theorem getCell_eq (g : Grid) (r c : ℕ) (row : List Cell)
    (hr : g.get? r = some row) : getCell g r c = getCellRow row c := by
  unfold getCell
  rw [hr]

/-- Every grid cell is either empty or a member of one of the rows. -/
theorem getCell_cases (g : Grid) (r c : ℕ) :
    getCell g r c = Cell.empty ∨ ∃ row ∈ g, getCell g r c ∈ row := by
  cases hr : g.get? r with
  | none =>
    left
    unfold getCell
    rw [hr]
  | some row =>
    rw [getCell_eq g r c row hr]
    cases hc : row.get? c with
    | none =>
      left
      unfold getCellRow
      rw [hc]
    | some cl =>
      right
      refine ⟨row, List.get?_mem hr, ?_⟩
      have hcl : getCellRow row c = cl := by
        unfold getCellRow
        rw [hc]
      rw [hcl]
      exact List.get?_mem hc

/-- A cell anchoring the vertical income format (exactly ДОХОДЫ) in
particular contains ДОХОД, the anchor of the horizontal format. -/
theorem vert_anchor_implies (cl : Cell) (h : isIncomeVertCell cl = true) :
    isIncomeAnchorCell cl = true := by
  cases cl with
  | empty => simp [isIncomeVertCell] at h
  | num d => simp [isIncomeVertCell] at h
  | str s =>
    simp only [isIncomeVertCell, decide_eq_true_eq] at h
    simp only [isIncomeAnchorCell, h]
    decide

/-! ## Claim theorems -/

/-- Claim C1, counterexample to the claim as stated: _parse_decimal of the
string 8.000 is numerically 8, not 8000 — the implementation never treats a
dot as a thousands separator (the cleaning step turns commas into dots and
keeps dots, so a dot is always a decimal separator). -/
theorem parse_decimal_8000_counterexample :
    Dec.eqv (_parse_decimal (Cell.str "8.000")) (decInt 8000) = false ∧
    Dec.eqv (_parse_decimal (Cell.str "8.000")) (decInt 8) = true := by
  exact ⟨by decide, by decide⟩

/-- Claim C1 (amended): the numeric normalizer keeps the dot of the string
8.000 as a decimal separator, so the value is 8.00 and not 8000; the string
12,50 parses as 12.50 (comma as decimal separator); the empty string and a
letters-only string parse as 0. -/
theorem parse_decimal_examples :
    _parse_decimal (Cell.str "8.000") = Dec.mk 800 2 ∧
    _parse_decimal (Cell.str "12,50") = Dec.mk 1250 2 ∧
    _parse_decimal (Cell.str "") = Dec.mk 0 2 ∧
    _parse_decimal (Cell.str "abc") = Dec.mk 0 2 := by
  refine ⟨by decide, by decide, by decide, by decide⟩

/-- Claim C2: for the payment and cash collection extractors, whenever a
result is produced, totals_match is true exactly when the absolute
difference between the reported total and the sum of the plain line items
(records that are neither the total nor the ИТОГО КАССА subtotal) is at
most 0.01; and when no total record was emitted, the reported total is that
computed sum (so totals_match is true).  In particular a deviation of 0.005
is inside and a deviation of 0.02 outside the tolerance. -/
theorem reconciliation_tolerance_iff :
    ∀ (g : Grid) (pres : PayResult) (cres : CashResult),
      (extract_payment_types g = some pres →
        pres.totals_match =
          Dec.le (Dec.abs (pres.reported_total.sub (paySum pres.records)))
            (Dec.mk 1 2) ∧
        ((∀ r ∈ pres.records, r.is_total = false) →
          pres.reported_total = paySum pres.records ∧
          pres.totals_match = true)) ∧
      (extract_cash_collection g = some cres →
        cres.totals_match =
          Dec.le (Dec.abs (cres.reported_total.sub (cashSum cres.records)))
            (Dec.mk 1 2) ∧
        ((∀ r ∈ cres.records, r.is_total = false) →
          cres.reported_total = cashSum cres.records ∧
          cres.totals_match = true)) := by
  intro g pres cres
  constructor
  · intro h
    unfold extract_payment_types at h
    cases hf : findPayStart g with
    | none => rw [hf] at h; exact absurd h (by simp)
    | some r =>
      rw [hf] at h
      dsimp only at h
      by_cases he : (payScan (g.drop r)).records.isEmpty = true
      · rw [if_pos he] at h; exact absurd h (by simp)
      · rw [if_neg he] at h
        obtain ⟨hinv1, hinv2⟩ := payScan_inv (g.drop r)
        cases hrep : (payScan (g.drop r)).rep with
        | none =>
          have hps := Option.some.inj h
          subst hps
          simp only [hrep]
          constructor
          · simp only [Option.getD_none]
            rw [← hinv1, dec_sub_self_tol]
          · intro _
            simp only [Option.getD_none]
            exact ⟨hinv1, trivial⟩
        | some t =>
          have hps := Option.some.inj h
          subst hps
          simp only [hrep]
          constructor
          · simp only [Option.getD_some, ← hinv1]
          · intro hall
            exact absurd (hinv2.mpr hall) (by simp [hrep])
  · intro h
    unfold extract_cash_collection at h
    cases hf : findAnchorRC g
        (fun s => containsSub (pyLower (pyStrip s)) "инкассация") with
    | none => rw [hf] at h; exact absurd h (by simp)
    | some rc =>
      obtain ⟨r, c⟩ := rc
      rw [hf] at h
      dsimp only at h
      by_cases he :
          (cashScan c (g.drop (cashHeaderAdjust g (r + 1) c))).records.isEmpty
            = true
      · rw [if_pos he] at h; exact absurd h (by simp)
      · rw [if_neg he] at h
        obtain ⟨hinv1, hinv2⟩ :=
          cashScan_inv c (g.drop (cashHeaderAdjust g (r + 1) c))
        have hps := Option.some.inj h
        subst hps
        cases hrep : (cashScan c (g.drop (cashHeaderAdjust g (r + 1) c))).rep with
        | none =>
          simp only [hrep]
          constructor
          · simp only [Option.getD_none]
            rw [← hinv1]
          · intro _
            simp only [Option.getD_none]
            rw [← hinv1, dec_sub_self_tol]
            exact ⟨rfl, rfl⟩
        | some t =>
          simp only [hrep]
          constructor
          · simp only [Option.getD_some, ← hinv1]
          · intro hall
            exact absurd (hinv2.mpr hall) (by simp [hrep])

/-- Claim C2, witness: concrete blocks at the tolerance boundary — an exact
match, a 0.01 deviation (within tolerance) and a 0.02 deviation (rejected),
and the cash block of the same sheet. -/
theorem reconciliation_tolerance_iff_witness :
    (wPayRes.totals_match =
      Dec.le (Dec.abs (wPayRes.reported_total.sub (paySum wPayRes.records)))
        (Dec.mk 1 2) ∧
     wCashRes.totals_match =
      Dec.le (Dec.abs (wCashRes.reported_total.sub (cashSum wCashRes.records)))
        (Dec.mk 1 2)) ∧
    wEdgeRes.totals_match = true ∧ wFailRes.totals_match = false := by
  refine ⟨⟨?_, ?_⟩, ?_, ?_⟩
  · exact ((reconciliation_tolerance_iff reconWitnessGrid wPayRes wCashRes).1
      (by decide)).1
  · exact ((reconciliation_tolerance_iff reconWitnessGrid wPayRes wCashRes).2
      (by decide)).1
  · have h := ((reconciliation_tolerance_iff reconEdgeGrid wEdgeRes wCashRes).1
      (by decide)).1
    rw [h]
    decide
  · have h := ((reconciliation_tolerance_iff reconFailGrid wFailRes wCashRes).1
      (by decide)).1
    rw [h]
    decide

/-- Claim C3, counterexample to the claim as stated: on the end-to-end grid
the income extractor emits exactly two records, but neither carries an
is_total key — the horizontal income records hold only category and
amount, so the total row is not marked is_total. -/
theorem income_endtoend_counterexample :
    extract_income_records endToEndGrid =
      [incomeDict "Бар" (decInt 120000),
       incomeDict "Итого за смену" (decInt 500000)] ∧
    (extract_income_records endToEndGrid).map (List.lookup "is_total") =
      [none, none] := by
  exact ⟨by decide, by decide⟩

/-- Claim C3 (amended): the end-to-end grid yields exactly the two income
records (Бар, 120000) and (Итого за смену, 500000), without any is_total
marking, and ticket extraction returns the empty result — the tickets
anchor in row 0 column 3 is never found because the ticket extractor scans
only column 0, so no ticket records are produced. -/
theorem income_endtoend_amended :
    extract_income_records endToEndGrid =
      [incomeDict "Бар" (decInt 120000),
       incomeDict "Итого за смену" (decInt 500000)] ∧
    extract_ticket_sales endToEndGrid = none := by
  exact ⟨by decide, by decide⟩

/-- Claim C4, counterexample to the claim as stated: an income block whose
data rows are immediately followed by the cash block anchor Инкассация
(with no numeric value on that row) does not stop there — the anchor row is
consumed as an income record with amount 0. -/
theorem income_boundary_counterexample :
    extract_income_records boundaryGrid =
      [incomeDict "Бар" (decInt 100), incomeDict "Инкассация" (decInt 0)] := by
  decide

/-- Claim C4 (amended): in the income scan, a label row without an amount
in the probe window stops the scan without a record only when the label is
ВХОДНЫЕ БИЛЕТЫ; any other such label (in particular another block anchor)
is emitted as a record with amount 0 and the scan continues.  The expense
scan emits no record for a row without an amount but continues with the
next row instead of stopping. -/
theorem income_boundary_amended :
    ∀ (c : ℕ) (row : List Cell) (rest : List (List Cell)) (raw : String),
      getCellRow row c = Cell.str raw →
      probeDataAmount row c = none →
      ((pyUpper (pyStrip raw) = "ВХОДНЫЕ БИЛЕТЫ" →
          incomeScan c (row :: rest) = []) ∧
       (pyStrip raw ≠ "" →
        (containsSub (pyUpper (pyStrip raw)) "ИТОГО"
          && containsSub (pyUpper (pyStrip raw)) "СМЕН") = false →
        pyUpper (pyStrip raw) ≠ "ВХОДНЫЕ БИЛЕТЫ" →
          incomeScan c (row :: rest) =
            incomeDict (pyStrip raw) (decInt 0) :: incomeScan c rest) ∧
       (pyStrip raw ≠ "" →
          expScan c (row :: rest) = expScan c rest)) := by
  intro c row rest raw hcell hprobe
  refine ⟨?_, ?_, ?_⟩
  · intro hvb
    have h1 : pyStrip raw ≠ "" := by
      intro he
      rw [he] at hvb
      exact absurd hvb (by decide)
    have hts : (containsSub (pyUpper (pyStrip raw)) "ИТОГО"
        && containsSub (pyUpper (pyStrip raw)) "СМЕН") = false := by
      rw [hvb]; decide
    simp only [incomeScan, hcell, if_neg h1, hts, Bool.false_eq_true,
      if_false, hprobe, if_pos hvb]
  · intro h1 hts hvb
    simp only [incomeScan, hcell, if_neg h1, hts, Bool.false_eq_true,
      if_false, hprobe, if_neg hvb]
  · intro h1
    simp only [expScan, hcell, if_neg h1, hprobe]

/-- Claim C4, witness: the tickets anchor stops the income scan silently, a
cash anchor row becomes an income record with amount 0, and the expense
scan skips an amount-free row and keeps going. -/
theorem income_boundary_amended_witness :
    incomeScan 0 [[Cell.str "Входные билеты"]] = [] ∧
    incomeScan 0 [[Cell.str "Инкассация"]] =
      [incomeDict "Инкассация" (decInt 0)] ∧
    expScan 0 [[Cell.str "Инкассация"],
               [Cell.str "Прочее", Cell.num (Dec.mk 30 0)]] =
      expScan 0 [[Cell.str "Прочее", Cell.num (Dec.mk 30 0)]] := by
  refine ⟨?_, ?_, ?_⟩
  · exact (income_boundary_amended 0 [Cell.str "Входные билеты"] []
      "Входные билеты" (by decide) (by decide)).1 (by decide)
  · have h := (income_boundary_amended 0 [Cell.str "Инкассация"] []
      "Инкассация" (by decide) (by decide)).2.1 (by decide) (by decide)
      (by decide)
    rw [h]
    decide
  · exact (income_boundary_amended 0 [Cell.str "Инкассация"]
      [[Cell.str "Прочее", Cell.num (Dec.mk 30 0)]] "Инкассация"
      (by decide) (by decide)).2.2 (by decide)

/-- Claim C5: in the payment scan, a row whose label starts with ИТОГО
КАССА is emitted as the cash subtotal record (is_cash_total true, is_total
false) and scanning continues with the following rows; a row whose label
starts with ИТОГО but not with ИТОГО КАССА is emitted as the total record
and the scan result no longer depends on the remaining rows — the scan
terminates there. -/
theorem pay_itogo_kassa_subtotal :
    ∀ (row : List Cell) (rest : List (List Cell)) (s : String),
      getCellRow row 0 = Cell.str s →
      (strStarts (pyUpper (pyStrip s)) "ИТОГО КАССА" = true →
        payScan (row :: rest) =
          ⟨⟨"ИТОГО КАССА", _parse_decimal (getCellRow row 2), false, true⟩
              :: (payScan rest).records,
            (payScan rest).calcTotal, (payScan rest).rep,
            some (((payScan rest).repCash).getD
              (_parse_decimal (getCellRow row 2)))⟩) ∧
      (strStarts (pyUpper (pyStrip s)) "ИТОГО" = true →
        strStarts (pyUpper (pyStrip s)) "ИТОГО КАССА" = false →
        payScan (row :: rest) =
          ⟨[⟨"ИТОГО", _parse_decimal (getCellRow row 2), true, false⟩],
            decInt 0, some (_parse_decimal (getCellRow row 2)), none⟩) := by
  intro row rest s hcell
  have hne : ∀ pat : String, pat.data ≠ [] →
      strStarts (pyUpper (pyStrip s)) pat = true → pyStrip s ≠ "" := by
    intro pat hpat hst he
    rw [he] at hst
    cases hp : pat.data with
    | nil => exact hpat hp
    | cons a as =>
      rw [strStarts, hp] at hst
      simp [pyUpper, listStarts] at hst
  constructor
  · intro hks
    have h1 : pyStrip s ≠ "" := hne _ (by decide) hks
    simp only [payScan, hcell, payStep, if_neg h1, hks, if_pos]
  · intro hit hks
    have h1 : pyStrip s ≠ "" := hne _ (by decide) hit
    simp only [payScan, hcell, payStep, if_neg h1, hks, hit, if_pos,
      Bool.false_eq_true, if_false]

/-- Claim C5, witness: a cash subtotal row followed by a total row. -/
theorem pay_itogo_kassa_subtotal_witness :
    payScan [[Cell.str "ИТОГО КАССА", Cell.empty, Cell.num (Dec.mk 70 0)],
             [Cell.str "ИТОГО", Cell.empty, Cell.num (Dec.mk 150 0)]] =
      ⟨⟨"ИТОГО КАССА", decInt 70, false, true⟩
          :: (payScan [[Cell.str "ИТОГО", Cell.empty,
                Cell.num (Dec.mk 150 0)]]).records,
        (payScan [[Cell.str "ИТОГО", Cell.empty,
          Cell.num (Dec.mk 150 0)]]).calcTotal,
        (payScan [[Cell.str "ИТОГО", Cell.empty,
          Cell.num (Dec.mk 150 0)]]).rep,
        some ((payScan [[Cell.str "ИТОГО", Cell.empty,
          Cell.num (Dec.mk 150 0)]]).repCash.getD (decInt 70))⟩ ∧
    payScan [[Cell.str "ИТОГО", Cell.empty, Cell.num (Dec.mk 150 0)]] =
      ⟨[⟨"ИТОГО", decInt 150, true, false⟩], decInt 0, some (decInt 150),
        none⟩ := by
  constructor
  · have h := (pay_itogo_kassa_subtotal
      [Cell.str "ИТОГО КАССА", Cell.empty, Cell.num (Dec.mk 70 0)]
      [[Cell.str "ИТОГО", Cell.empty, Cell.num (Dec.mk 150 0)]]
      "ИТОГО КАССА" (by decide)).1 (by decide)
    rw [h]
    decide
  · have h := (pay_itogo_kassa_subtotal
      [Cell.str "ИТОГО", Cell.empty, Cell.num (Dec.mk 150 0)] []
      "ИТОГО" (by decide)).2 (by decide) (by decide)
    rw [h]
    decide

/-- Claim C6, counterexample to the claim as stated: in the cash collection
extractor a blank label row is followed by the итого row five rows further
on — beyond the four-row window the claim asserts — and the scan still
continues and emits the total record, because the cash extractor actually
looks ahead up to seven rows. -/
theorem cash_lookahead_window_counterexample :
    extract_cash_collection gapGrid =
      some ⟨[⟨"USD", some (decInt 2), some (decInt 50), decInt 100, false⟩,
             ⟨"итого", none, none, decInt 100, true⟩],
        decInt 100, decInt 100, true⟩ := by
  decide

/-- Claim C6 (amended): on a blank label cell the ticket and payment scans
look ahead exactly 4 rows and the cash scan exactly 7 rows for a total
label; when the lookahead succeeds the blank row is skipped and scanning
continues, otherwise the block ends at the blank row. -/
theorem blank_lookahead_windows :
    (∀ rest : List (List Cell),
      lookaheadItogo rest = lookaheadItogo (rest.take 4)) ∧
    (∀ (rest : List (List Cell)) (c : ℕ),
      cashLookahead rest c = cashLookahead (rest.take 7) c) ∧
    (∀ (row : List Cell) (rest : List (List Cell)),
      getCellRow row 0 = Cell.empty →
      (lookaheadItogo rest = true →
        ticketScan (row :: rest) = ticketScan rest ∧
        payScan (row :: rest) = payScan rest) ∧
      (lookaheadItogo rest = false →
        ticketScan (row :: rest) = ⟨[], 0, decInt 0, none⟩ ∧
        payScan (row :: rest) = ⟨[], decInt 0, none, none⟩)) ∧
    (∀ (c : ℕ) (row : List Cell) (rest : List (List Cell)),
      getCellRow row c = Cell.empty →
      (cashLookahead rest c = true →
        cashScan c (row :: rest) = cashScan c rest) ∧
      (cashLookahead rest c = false →
        cashScan c (row :: rest) = ⟨[], decInt 0, none⟩)) := by
  refine ⟨?_, ?_, ?_, ?_⟩
  · intro rest
    simp only [lookaheadItogo, List.take_take]
    norm_num
  · intro rest c
    simp only [cashLookahead, List.take_take]
    norm_num
  · intro row rest hcell
    constructor
    · intro hla
      constructor
      · simp only [ticketScan, hcell, hla, if_pos]
      · simp only [payScan, hcell, hla, if_pos]
    · intro hla
      constructor
      · simp only [ticketScan, hcell, hla, Bool.false_eq_true, if_false]
      · simp only [payScan, hcell, hla, Bool.false_eq_true, if_false]
  · intro c row rest hcell
    constructor
    · intro hla
      simp only [cashScan, hcell, hla, if_pos]
    · intro hla
      simp only [cashScan, hcell, hla, Bool.false_eq_true, if_false]

/-- Claim C6, witness: blank rows skipped or terminating in each of the
three scans, at concrete inputs. -/
theorem blank_lookahead_windows_witness :
    lookaheadItogo [[Cell.str "ИТОГО"]] =
      lookaheadItogo ([[Cell.str "ИТОГО"]].take 4) ∧
    cashLookahead [[Cell.str "итого"]] 0 =
      cashLookahead ([[Cell.str "итого"]].take 7) 0 ∧
    ticketScan [[], [Cell.str "ИТОГО", Cell.num (Dec.mk 2 0),
        Cell.num (Dec.mk 50 0)]] =
      ticketScan [[Cell.str "ИТОГО", Cell.num (Dec.mk 2 0),
        Cell.num (Dec.mk 50 0)]] ∧
    payScan [[], [Cell.str "ИТОГО", Cell.empty, Cell.num (Dec.mk 50 0)]] =
      payScan [[Cell.str "ИТОГО", Cell.empty, Cell.num (Dec.mk 50 0)]] ∧
    ticketScan [[]] = ⟨[], 0, decInt 0, none⟩ ∧
    payScan [[]] = ⟨[], decInt 0, none, none⟩ ∧
    cashScan 0 [[], [Cell.str "итого", Cell.empty, Cell.empty,
        Cell.num (Dec.mk 5 0)]] =
      cashScan 0 [[Cell.str "итого", Cell.empty, Cell.empty,
        Cell.num (Dec.mk 5 0)]] ∧
    cashScan 0 [[]] = ⟨[], decInt 0, none⟩ := by
  refine ⟨blank_lookahead_windows.1 [[Cell.str "ИТОГО"]],
    blank_lookahead_windows.2.1 [[Cell.str "итого"]] 0, ?_, ?_, ?_, ?_, ?_, ?_⟩
  · exact ((blank_lookahead_windows.2.2.1 []
      [[Cell.str "ИТОГО", Cell.num (Dec.mk 2 0), Cell.num (Dec.mk 50 0)]]
      (by decide)).1 (by decide)).1
  · exact ((blank_lookahead_windows.2.2.1 []
      [[Cell.str "ИТОГО", Cell.empty, Cell.num (Dec.mk 50 0)]]
      (by decide)).1 (by decide)).2
  · exact ((blank_lookahead_windows.2.2.1 [] [] (by decide)).2 (by decide)).1
  · exact ((blank_lookahead_windows.2.2.1 [] [] (by decide)).2 (by decide)).2
  · exact (blank_lookahead_windows.2.2.2 0 []
      [[Cell.str "итого", Cell.empty, Cell.empty, Cell.num (Dec.mk 5 0)]]
      (by decide)).1 (by decide)
  · exact (blank_lookahead_windows.2.2.2 0 [] [] (by decide)).2 (by decide)

/-- Claim C7: staff debts extraction returns the empty result whenever the
итого row of the cash block cannot be located after the Инкассация anchor;
when it is located at row ir in column c, every emitted debt record takes
its label from column c — the cash block column — of a row between ir + 2
(the fixed two-row offset) and ir + 11; the block has no anchor phrase of
its own. -/
theorem staff_debts_relative_anchor :
    ∀ g : Grid,
      (findCashItogo g = none → extract_staff_debts g = none) ∧
      (∀ ir c res, findCashItogo g = some (ir, c) →
        extract_staff_debts g = some res →
        ∀ rec ∈ res.records, ∃ i, ir + 2 ≤ i ∧ i < ir + 12 ∧ ∃ s,
          getCell g i c = Cell.str s ∧ rec.debt_type = pyStrip s) := by
  intro g
  constructor
  · intro h
    unfold extract_staff_debts
    rw [h]
  · intro ir c res h1 h2 rec hrec
    unfold extract_staff_debts at h2
    rw [h1] at h2
    dsimp only at h2
    by_cases he : (debtScan c ((g.drop (ir + 2)).take 10)).records.isEmpty = true
    · rw [if_pos he] at h2; exact absurd h2 (by simp)
    · rw [if_neg he] at h2
      have hps := Option.some.inj h2
      subst hps
      obtain ⟨row, hrow, s, hs, hdt⟩ := debtScan_prov c _ rec hrec
      obtain ⟨n, hn⟩ := List.mem_iff_get?.mp hrow
      have hlen : n < ((g.drop (ir + 2)).take 10).length :=
        (List.get?_eq_some.mp hn).1
      have hn10 : n < 10 := by
        have := List.length_take 10 (g.drop (ir + 2))
        omega
      rw [List.get?_take hn10, List.get?_drop] at hn
      refine ⟨ir + 2 + n, by omega, by omega, s, ?_, hdt⟩
      unfold getCell
      rw [hn]
      exact hs

/-- Claim C7, witness: the empty grid has no cash итого and yields the
empty result; on a grid whose cash итого sits at row 5, the debt record of
row 7 is traced back to the cash column. -/
theorem staff_debts_relative_anchor_witness :
    extract_staff_debts ([] : Grid) = none ∧
    (∃ i, 5 + 2 ≤ i ∧ i < 5 + 12 ∧ ∃ s,
      getCell debtWitnessGrid i 0 = Cell.str s ∧
      (DebtRec.mk "Долг Иван" (decInt 500) false).debt_type = pyStrip s) := by
  constructor
  · exact (staff_debts_relative_anchor ([] : Grid)).1 (by decide)
  · exact (staff_debts_relative_anchor debtWitnessGrid).2 5 0 wDebtRes
      (by decide) (by decide) ⟨"Долг Иван", decInt 500, false⟩ (by decide)

/-- Claim C8: in the cash scan, a non-total data row whose amount cell is
blank is emitted with amount quantity times exchange rate, computed exactly
on decimals and rounded to two fractional digits; a row whose amount cell
parses to a non-zero value keeps that value unchanged. -/
theorem cash_amount_recompute :
    ∀ (c : ℕ) (row : List Cell) (rest : List (List Cell)) (s : String),
      getCellRow row c = Cell.str s →
      pyStrip s ≠ "" →
      containsSub (pyLower (pyStrip s)) "итого" = false →
      (getCellRow row (c + 3) = Cell.empty →
        cashScan c (row :: rest) =
          ⟨⟨pyStrip s, some (_parse_decimal (getCellRow row (c + 1))),
              some (_parse_decimal (getCellRow row (c + 2))),
              quantize2 ((_parse_decimal (getCellRow row (c + 1))).mul
                (_parse_decimal (getCellRow row (c + 2)))), false⟩
              :: (cashScan c rest).records,
            (quantize2 ((_parse_decimal (getCellRow row (c + 1))).mul
                (_parse_decimal (getCellRow row (c + 2))))).add
              (cashScan c rest).calcTotal,
            (cashScan c rest).rep⟩) ∧
      (_parse_decimal (getCellRow row (c + 3)) ≠ decInt 0 →
        cashScan c (row :: rest) =
          ⟨⟨pyStrip s, some (_parse_decimal (getCellRow row (c + 1))),
              some (_parse_decimal (getCellRow row (c + 2))),
              _parse_decimal (getCellRow row (c + 3)), false⟩
              :: (cashScan c rest).records,
            (_parse_decimal (getCellRow row (c + 3))).add
              (cashScan c rest).calcTotal,
            (cashScan c rest).rep⟩) := by
  intro c row rest s hcell hne hit
  constructor
  · intro hblank
    simp only [cashScan, hcell, if_neg hne, hit, Bool.false_eq_true, if_false,
      hblank]
    norm_num [_parse_decimal, decInt]
  · intro hnz
    simp only [cashScan, hcell, if_neg hne, hit, Bool.false_eq_true, if_false,
      if_neg hnz]

/-- Claim C8, witness: a blank amount cell yields 3 times 50 equals 150.00;
an explicit amount of 90 stays 90.00. -/
theorem cash_amount_recompute_witness :
    cashScan 0 [[Cell.str "USD", Cell.num (Dec.mk 3 0),
        Cell.num (Dec.mk 50 0)]] =
      ⟨[⟨"USD", some (decInt 3), some (decInt 50), decInt 150, false⟩],
        decInt 150, none⟩ ∧
    cashScan 0 [[Cell.str "EUR", Cell.num (Dec.mk 2 0),
        Cell.num (Dec.mk 50 0), Cell.num (Dec.mk 90 0)]] =
      ⟨[⟨"EUR", some (decInt 2), some (decInt 50), decInt 90, false⟩],
        decInt 90, none⟩ := by
  constructor
  · have h := (cash_amount_recompute 0
      [Cell.str "USD", Cell.num (Dec.mk 3 0), Cell.num (Dec.mk 50 0)] []
      "USD" (by decide) (by decide) (by decide)).1 (by decide)
    rw [h]
    decide
  · have h := (cash_amount_recompute 0
      [Cell.str "EUR", Cell.num (Dec.mk 2 0), Cell.num (Dec.mk 50 0),
        Cell.num (Dec.mk 90 0)] [] "EUR"
      (by decide) (by decide) (by decide)).2 (by decide)
    rw [h]
    decide

/-- Claim C9: when the anchor phrase of a block occurs nowhere in the grid,
the extractor returns the empty result and no error: without any cell
containing ДОХОД the income extractor returns the empty list (neither the
horizontal nor the vertical anchor can match), and without any cell equal
to НАЛИЧНЫЕ the payment extractor returns the empty result. -/
theorem missing_anchor_empty :
    ∀ g : Grid,
      ((∀ row ∈ g, ∀ cl ∈ row, isIncomeAnchorCell cl = false) →
        extract_income_records g = []) ∧
      ((∀ row ∈ g, ∀ cl ∈ row, isPayAnchorCell cl = false) →
        extract_payment_types g = none) := by
  intro g
  constructor
  · intro hno
    have hcell : ∀ r c, isIncomeAnchorCell (getCell g r c) = false := by
      intro r c
      rcases getCell_cases g r c with he | ⟨row, hrow, hmem⟩
      · rw [he]; rfl
      · exact hno row hrow _ hmem
    have hfc : findIncomeCol g = none := by
      unfold findIncomeCol
      refine List.find?_eq_none.mpr fun c _ => ?_
      simp [hcell 0 c]
    have hfv : findIncomeStartVert g = none := by
      unfold findIncomeStartVert
      rw [Option.map_eq_none']
      refine List.find?_eq_none.mpr fun r _ => ?_
      intro hv
      have := vert_anchor_implies _ hv
      rw [hcell r 0] at this
      exact absurd this (by decide)
    unfold extract_income_records
    rw [hfc, hfv]
  · intro hno
    have hcell : ∀ r, isPayAnchorCell (getCell g r 0) = false := by
      intro r
      rcases getCell_cases g r 0 with he | ⟨row, hrow, hmem⟩
      · rw [he]; rfl
      · exact hno row hrow _ hmem
    have hf : findPayStart g = none := by
      unfold findPayStart
      refine List.find?_eq_none.mpr fun r _ => ?_
      simp [hcell r]
    unfold extract_payment_types
    rw [hf]

/-- Claim C9, witness: a sheet without anchors gives empty results. -/
theorem missing_anchor_empty_witness :
    extract_income_records noAnchorGrid = [] ∧
    extract_payment_types noAnchorGrid = none := by
  exact ⟨(missing_anchor_empty noAnchorGrid).1 (by decide),
    (missing_anchor_empty noAnchorGrid).2 (by decide)⟩

/-- Claim C10: in ticket extraction, totals_match is false whenever the
total record quantity differs from the sum of the non-total record
quantities — integer quantities are compared exactly, with no tolerance,
regardless of the amounts. -/
theorem ticket_quantity_exact :
    ∀ (g : Grid) (res : TicketResult) (t : TicketRec),
      extract_ticket_sales g = some res → t ∈ res.records →
      t.is_total = true → t.quantity ≠ ticketQtySum res.records →
      res.totals_match = false := by
  intro g res t h hmem htot hq
  unfold extract_ticket_sales at h
  cases hf : findTicketStart g with
  | none => rw [hf] at h; exact absurd h (by simp)
  | some idx =>
    rw [hf] at h
    dsimp only at h
    by_cases he :
        (ticketScan ((ticketDataRows (g.drop (idx + 1))).getD
          (g.drop (idx + 1)))).records.isEmpty = true
    · rw [if_pos he] at h; exact absurd h (by simp)
    · rw [if_neg he] at h
      have hps := Option.some.inj h
      subst hps
      obtain ⟨hinv1, hinv2, hinv3⟩ :=
        ticketScan_inv ((ticketDataRows (g.drop (idx + 1))).getD
          (g.drop (idx + 1)))
      cases hrep : (ticketScan ((ticketDataRows (g.drop (idx + 1))).getD
          (g.drop (idx + 1)))).rep with
      | none =>
        exact absurd htot (by simp [hinv2 hrep t hmem])
      | some qa =>
        obtain ⟨q, a⟩ := qa
        have hqt : t.quantity = q := hinv3 q a hrep t hmem htot
        simp only [hrep]
        have hne : ¬(q = (ticketScan ((ticketDataRows (g.drop (idx + 1))).getD
            (g.drop (idx + 1)))).calcQty) := by
          rw [hinv1]
          rw [hqt] at hq
          exact hq
        simp [hne]

/-- Claim C10, witness: quantities 3 against 2 with equal amounts turn
totals_match off. -/
theorem ticket_quantity_exact_witness : wTickRes.totals_match = false := by
  exact ticket_quantity_exact ticketMismatchGrid wTickRes
    ⟨"ИТОГО", none, 3, decInt 2000, true⟩ (by decide) (by decide) (by decide)
    (by decide)
